import Mathlib

/-!
Shallow embedding of the todo-management application (Next.js API routes
backed by a Prisma/SQLite store) for checking its natural-language
specification.

The relational store is modelled as lists of records; `findUnique` /
`findFirst` become `List.find?`, `update` becomes a map over the list and
`delete` a filter.  The SQLite schema (migration file) declares
`ON DELETE CASCADE` foreign keys from `files.todoId` and
`notifications.todoId` to `todos.id`, so deleting a todo also filters those
lists.  Timestamps are integers (epoch milliseconds) passed in explicitly;
DB-generated record ids (cuid) are passed in as parameters or omitted when
no property depends on them.  Fields of the source schema that no handler
below reads (password hashes, createdAt/updatedAt audit stamps, file ids)
are omitted from the records.
-/

namespace TodoApp

/-- Role column of `users` (`USER` default, `ADMIN`). -/
inductive Role where
  | USER
  | ADMIN
deriving DecidableEq, Repr

/-- `TodoStatus` enum from the manual type definitions. -/
inductive TodoStatus where
  | PENDING
  | IN_PROGRESS
  | COMPLETED
  | CANCELLED
deriving DecidableEq, Repr

/-- `TodoPriority` enum from the manual type definitions. -/
inductive TodoPriority where
  | LOW
  | MEDIUM
  | HIGH
  | URGENT
deriving DecidableEq, Repr

/-- A row of the `users` table (fields the API handlers read). -/
structure User where
  id : String
  email : String
  name : String
  role : Role
  isActive : Bool
  profilePic : Option String
deriving DecidableEq, Repr

/-- A row of the `todos` table.  `dueDate` and `completedAt` are epoch
milliseconds; `position` is the nullable INTEGER ordering hint. -/
structure Todo where
  id : String
  title : String
  description : Option String
  status : TodoStatus
  priority : TodoPriority
  dueDate : Option Int
  position : Option Int
  creatorId : String
  assigneeId : String
  completedAt : Option Int
deriving DecidableEq, Repr

/-- A row of the `files` table (fields the file routes read). -/
structure FileRec where
  fileName : String
  originalName : String
  fileSize : Int
  mimeType : String
  todoId : Option String
  uploadedById : String
  uploadedAt : Int
deriving DecidableEq, Repr

/-- A row of the `notifications` table (fields the handlers write/read).
The free-form `metadata` JSON column is not modelled. -/
structure Notification where
  title : String
  message : String
  isRead : Bool
  type : String
  userId : String
  todoId : Option String
deriving DecidableEq, Repr

/-- The relational store: one list per table. -/
structure Store where
  users : List User
  todos : List Todo
  files : List FileRec
  notifications : List Notification
deriving DecidableEq, Repr

/-- `prisma.user.findUnique({ where: { id } })`. -/
def Store.findUser (s : Store) (uid : String) : Option User :=
  s.users.find? (fun u => u.id == uid)

/-- `prisma.todo.findUnique({ where: { id } })`. -/
def Store.findTodo (s : Store) (tid : String) : Option Todo :=
  s.todos.find? (fun t => t.id == tid)

/-- `prisma.todo.update({ where: { id } , data })` applied as a map:
the row with the matching primary key is replaced by `f` of itself. -/
def Store.updateTodo (s : Store) (tid : String) (f : Todo → Todo) : Store :=
  { s with todos := s.todos.map (fun t => if t.id == tid then f t else t) }

/-- `prisma.user.update({ where: { id }, data })` as a map over `users`. -/
def Store.updateUser (s : Store) (uid : String) (f : User → User) : Store :=
  { s with users := s.users.map (fun u => if u.id == uid then f u else u) }

/-- `prisma.todo.delete({ where: { id } })` together with the schema's
`ON DELETE CASCADE` foreign keys: rows of `files` and `notifications`
whose `todoId` references the deleted todo are removed as well. -/
def Store.deleteTodoCascade (s : Store) (tid : String) : Store :=
  { s with
    todos := s.todos.filter (fun t => t.id != tid)
    files := s.files.filter (fun f => f.todoId != some tid)
    notifications := s.notifications.filter (fun n => n.todoId != some tid) }

/-- `prisma.notification.create` (the generated cuid id is not modelled). -/
def Store.createNotification (s : Store) (n : Notification) : Store :=
  { s with notifications := s.notifications ++ [n] }

/-- Outcome of `extractTokenFromHeader` + `verifyToken` of the JWT
helper module (`@/lib/auth/jwt`, staged after the first document
separator of the prisma.ts file, lines 31-100).  `noToken`: the
authorization header is missing or does not start with `Bearer `, so
`extractTokenFromHeader` returns null.  `invalid`: `jwt.verify` threw,
and `verifyToken` re-throws the fixed `Error("Invalid or expired
token")`.  `valid uid`: `jwt.verify` accepted the token (signature and
expiry — the jsonwebtoken library call is the one external step left
abstract) and its `JwtPayload` carries `userId = uid`. -/
inductive TokenCheck where
  | noToken
  | invalid
  | valid (userId : String)
deriving DecidableEq, Repr

/-- Result shape of `authenticateUser` (middleware/auth.ts): either an
authenticated user projection or an error message. -/
inductive AuthOutcome where
  | authed (u : User)
  | failed (msg : String)
deriving DecidableEq, Repr

/-- `authenticateUser` (middleware/auth.ts lines 16-66): after token
verification the user is re-fetched from the store; a missing user or an
inactive user fails authentication.  A throwing `verifyToken` is caught
by the middleware catch, which reports the thrown message — always the
fixed "Invalid or expired token" (jwt module line 64). -/
def authenticateUser (s : Store) (tok : TokenCheck) : AuthOutcome :=
  match tok with
  | .noToken => .failed "No token provided"
  | .invalid => .failed "Invalid or expired token"
  | .valid uid =>
    match s.findUser uid with
    | none => .failed "User not found"
    | some u =>
      if !u.isActive then .failed "User account is disabled"
      else .authed u

/-- `canAccessTodo` (middleware/auth.ts lines 79-94): look the todo up by
id; a missing todo yields `false`; otherwise the caller must be its
creator or its assignee. -/
def canAccessTodo (s : Store) (userId todoId : String) : Bool :=
  match s.findTodo todoId with
  | none => false
  | some t => t.creatorId == userId || t.assigneeId == userId

/-- HTTP response, reduced to what the claims mention: the status code of
a success envelope, or the status code and message of an error envelope. -/
inductive Resp where
  | ok (status : Nat)
  | err (status : Nat) (msg : String)
deriving DecidableEq, Repr

/-- Status code of a response. -/
def Resp.statusCode : Resp → Nat
  | .ok st => st
  | .err st _ => st

/-- Result of a mutating handler: the store after the request and the
response sent back. -/
structure HResult where
  store : Store
  resp : Resp
deriving DecidableEq, Repr

/-! ### PUT /api/todos/[id]/status (status-only update route) -/

/-- PUT /api/todos/[id]/status (status route.ts lines 7-61).  The request
body field `status` is `none` when absent or falsy.  After authentication
and the `canAccessTodo` check, the status must be one of PENDING,
IN_PROGRESS, COMPLETED; the update then writes the `status` column only.
No other column is touched and no notification is created. -/
def statusPut (s : Store) (tok : TokenCheck) (tid : String)
    (status : Option TodoStatus) : HResult :=
  match authenticateUser s tok with
  | .failed msg => ⟨s, .err 401 msg⟩
  | .authed u =>
    if !canAccessTodo s u.id tid then ⟨s, .err 403 "Access denied"⟩
    else
      match status with
      | none => ⟨s, .err 400 "Invalid status"⟩
      | some st =>
        if st == .CANCELLED then ⟨s, .err 400 "Invalid status"⟩
        else
          ⟨s.updateTodo tid (fun t => { t with status := st }), .ok 200⟩

/-! ### PUT /api/todos/[id] (generic update route) -/

/-- The `dueDate` field of an update/create body as the handlers see it:
`dNull` for `null` or the empty string (cleared), `dDate ms` for a string
parsing to the given epoch-millisecond instant, `dInvalid` for a string on
which `new Date(...)` yields NaN. -/
inductive DueDateField where
  | dNull
  | dDate (ms : Int)
  | dInvalid
deriving DecidableEq, Repr

/-- `UpdateTodoRequest` body of the generic PUT.  An outer `none` is a
field absent from the JSON body (`undefined`); for `description` the inner
option is the JSON `null`. -/
structure UpdateTodoRequest where
  title : Option String
  description : Option (Option String)
  status : Option TodoStatus
  priority : Option TodoPriority
  dueDate : Option DueDateField
  position : Option Int
deriving DecidableEq, Repr

/-- The `updateData` object built by the generic PUT: each `some` field is
a column that will be written.  `completedAt`: `some (some now)` stamps,
`some none` clears. -/
structure UpdateData where
  title : Option String
  description : Option (Option String)
  status : Option TodoStatus
  completedAt : Option (Option Int)
  priority : Option TodoPriority
  dueDate : Option (Option Int)
  position : Option Int
deriving DecidableEq, Repr

/-- `Object.keys(updateData).length === 0`. -/
def UpdateData.isEmpty (d : UpdateData) : Bool :=
  d.title == none && d.description == none && d.status == none &&
  d.completedAt == none && d.priority == none && d.dueDate == none &&
  d.position == none

/-- The `changes` object of the generic PUT records which tracked fields
differ from the stored row (position is deliberately not tracked there). -/
structure Changes where
  title : Bool
  description : Bool
  status : Bool
  priority : Bool
  dueDate : Bool
deriving DecidableEq, Repr

/-- `Object.keys(changes).length > 0`. -/
def Changes.nonEmpty (c : Changes) : Bool :=
  c.title || c.description || c.status || c.priority || c.dueDate

/-- JS `String.prototype.trim()`: strip leading and trailing whitespace.
(Defined over the character list so that it evaluates by kernel
reduction.) -/
def strTrim (s : String) : String :=
  String.mk (((s.toList.dropWhile Char.isWhitespace).reverse.dropWhile
    Char.isWhitespace).reverse)

/-- The due-date parse of the generic PUT (route lines 107-117): an
absent field stays absent, `null` or the empty string clears the column,
a parsable date yields its instant.  (The `dInvalid` case is rejected
before this parse is consulted; its value here is immaterial.) -/
def parsedDueOf : Option DueDateField → Option (Option Int)
  | none => none
  | some .dNull => some none
  | some (.dDate ms) => some (some ms)
  | some .dInvalid => some none

/-- `description?.trim() || null`: JS coerces a whitespace-only trim
result (empty string) and `null` itself to `null`. -/
def normalizeDescription (d : Option String) : Option String :=
  match d with
  | none => none
  | some str => if strTrim str == "" then none else some (strTrim str)

/-- The diff step of the generic PUT (route lines 139-180): compare each
submitted field with the stored row, recording the column writes
(`updateData`) and the tracked changes.  `parsedDue` is the outcome of the
due-date parse (`none` = field absent).  Setting status to COMPLETED
stamps `completedAt := now`; moving away from a stored COMPLETED clears
it.  A submitted `position` is always written, without comparison against
the stored row. -/
def buildUpdate (cur : Todo) (body : UpdateTodoRequest)
    (parsedDue : Option (Option Int)) (now : Int) : UpdateData × Changes :=
  let tChanged := match body.title with
    | some t => t != cur.title
    | none => false
  let dChanged := match body.description with
    | some d => d != cur.description
    | none => false
  let sChanged := match body.status with
    | some st => st != cur.status
    | none => false
  let pChanged := match body.priority with
    | some p => p != cur.priority
    | none => false
  let dueChanged := match parsedDue with
    | some pd => pd != cur.dueDate
    | none => false
  let data : UpdateData :=
    { title := if tChanged then (body.title.map strTrim) else none
      description :=
        if dChanged then (body.description.map normalizeDescription) else none
      status := if sChanged then body.status else none
      completedAt :=
        if sChanged then
          if body.status == some .COMPLETED then some (some now)
          else if cur.status == .COMPLETED then some none
          else none
        else none
      priority := if pChanged then body.priority else none
      dueDate := if dueChanged then parsedDue else none
      position := body.position }
  (data, ⟨tChanged, dChanged, sChanged, pChanged, dueChanged⟩)

/-- Apply an `updateData` object to the stored row: each `some` field
overwrites the corresponding column. -/
def applyUpdate (t : Todo) (d : UpdateData) : Todo :=
  { t with
    title := d.title.getD t.title
    description := match d.description with
      | some v => v
      | none => t.description
    status := d.status.getD t.status
    completedAt := match d.completedAt with
      | some v => v
      | none => t.completedAt
    priority := d.priority.getD t.priority
    dueDate := match d.dueDate with
      | some v => v
      | none => t.dueDate
    position := match d.position with
      | some p => some p
      | none => t.position }

/-- Tail of PUT /api/todos/[id] (todos/[id] route lines 139-254), from
the diff step on: reached once authentication, the access check, the
title and due-date validations and the `currentTodo` fetch have passed.
An empty `updateData` is rejected; otherwise the row is updated, and a
`todo_updated` notification is created when a tracked field changed and
the actor is not the assignee, plus a `todo_completed` notification when
the submitted status is COMPLETED and the actor is not the assignee.
Those `prisma.notification.create` calls are not wrapped in their own
try/catch, so when `notifOk` is false the failure falls to the outer
handler, which answers 500 — after the todo row has already been
updated. -/
def todoPutCore (s : Store) (u : User) (cur : Todo) (tid : String)
    (body : UpdateTodoRequest) (now : Int) (notifOk : Bool) : HResult :=
  let data := (buildUpdate cur body (parsedDueOf body.dueDate) now).1
  let changes := (buildUpdate cur body (parsedDueOf body.dueDate) now).2
  if data.isEmpty then ⟨s, .err 400 "No changes detected"⟩
  else
    let s1 := s.updateTodo tid (fun t => applyUpdate t data)
    let wantUpd := changes.nonEmpty && cur.assigneeId != u.id
    let wantCompl :=
      body.status == some .COMPLETED && cur.assigneeId != u.id
    if !notifOk && (wantUpd || wantCompl) then
      ⟨s1, .err 500 "Internal server error"⟩
    else
      let updatedTitle := (applyUpdate cur data).title
      let s2 := if wantUpd then
          s1.createNotification
            { title := "Todo Updated"
              message := "Your todo \"" ++ updatedTitle ++
                "\" has been updated"
              isRead := false
              type := "todo_updated"
              userId := cur.assigneeId
              todoId := some tid }
        else s1
      let s3 := if wantCompl then
          s2.createNotification
            { title := "Todo Completed"
              message := "Your todo \"" ++ updatedTitle ++
                "\" has been marked as completed"
              isRead := false
              type := "todo_completed"
              userId := cur.assigneeId
              todoId := some tid }
        else s2
      ⟨s3, .ok 200⟩

/-- PUT /api/todos/[id] (todos/[id] route lines 76-263): authentication,
the `canAccessTodo` check, title validation, due-date validation and the
`currentTodo` fetch, then the diff-and-update tail `todoPutCore`. -/
def todoPut (s : Store) (tok : TokenCheck) (tid : String)
    (body : UpdateTodoRequest) (now : Int) (notifOk : Bool) : HResult :=
  match authenticateUser s tok with
  | .failed msg => ⟨s, .err 401 msg⟩
  | .authed u =>
    if !canAccessTodo s u.id tid then ⟨s, .err 403 "Access denied"⟩
    else if (match body.title with
        | some t => strTrim t == ""
        | none => false) then ⟨s, .err 400 "Title cannot be empty"⟩
    else if (match body.title with
        | some t => decide (t.length > 255)
        | none => false) then
      ⟨s, .err 400 "Title must be less than 255 characters"⟩
    else if body.dueDate == some .dInvalid then
      ⟨s, .err 400 "Invalid due date format"⟩
    else
      match s.findTodo tid with
      | none => ⟨s, .err 404 "Todo not found"⟩
      | some cur => todoPutCore s u cur tid body now notifOk

/-! ### DELETE /api/todos/[id] -/

/-- DELETE /api/todos/[id] (todos/[id] route lines 266-337).  After
authentication and `canAccessTodo`, only the creator may delete; the
delete cascades (schema foreign keys) to the todo's files and
notifications.  The deletion notification for the assignee is wrapped in
its own try/catch: when `notifOk` is false the failure is logged and
swallowed and the handler still answers success. -/
def todoDelete (s : Store) (tok : TokenCheck) (tid : String)
    (notifOk : Bool) : HResult :=
  match authenticateUser s tok with
  | .failed msg => ⟨s, .err 401 msg⟩
  | .authed u =>
    if !canAccessTodo s u.id tid then ⟨s, .err 403 "Access denied"⟩
    else
      match s.findTodo tid with
      | none => ⟨s, .err 404 "Todo not found"⟩
      | some todo =>
        if todo.creatorId != u.id then
          ⟨s, .err 403 "Only the creator can delete this todo"⟩
        else
          let s1 := s.deleteTodoCascade tid
          let s2 :=
            if todo.assigneeId != u.id && notifOk then
              s1.createNotification
                { title := "Todo Deleted"
                  message := "The todo \"" ++ todo.title ++
                    "\" has been deleted by " ++ u.name
                  isRead := false
                  type := "todo_updated"
                  userId := todo.assigneeId
                  todoId := none }
            else s1
          ⟨s2, .ok 200⟩

/-! ### POST /api/todos (create route) -/

/-- `CreateTodoRequest` body of POST /api/todos.  `title` and
`assigneeId` are `none` when absent or the empty string (both are falsy
in the handler's checks); `dueDate` is `dNull` when absent, `null` or
empty (all falsy, so the parse is skipped). -/
structure CreateTodoRequest where
  title : Option String
  description : Option String
  assigneeId : Option String
  dueDate : DueDateField
  priority : Option TodoPriority
deriving DecidableEq, Repr

/-- `(lastTodo?.position || 0) + 1` where `lastTodo` is the assignee's
todo with the greatest non-null position (Prisma `orderBy position desc`;
SQLite sorts NULLs last in descending order). -/
def nextPosition (s : Store) (aid : String) : Int :=
  let ps := s.todos.filterMap
    (fun t => if t.assigneeId == aid then t.position else none)
  (match ps with
   | [] => 0
   | p :: rest => rest.foldl max p) + 1

/-- The row `prisma.todo.create` inserts for POST /api/todos: trimmed
title, normalized description, default PENDING status, default MEDIUM
priority, next per-assignee position, no completion stamp. -/
def newTodoOf (s : Store) (u : User) (title : String)
    (body : CreateTodoRequest) (aid : String) (newId : String) : Todo :=
  { id := newId
    title := strTrim title
    description := normalizeDescription body.description
    status := .PENDING
    priority := body.priority.getD .MEDIUM
    dueDate :=
      match body.dueDate with
      | .dDate ms => some ms
      | _ => none
    position := some (nextPosition s aid)
    creatorId := u.id
    assigneeId := aid
    completedAt := none }

/-- Tail of POST /api/todos (todos route lines 190-248), reached once
authentication and all validations have passed: compute the next
position for the assignee, create the todo row, then — only when the
assignee differs from the creator — create a `todo_assigned`
notification for the assignee.  That `prisma.notification.create` call
is not individually wrapped, so when `notifOk` is false the failure
reaches the outer catch, which answers 500 after the todo row has
already been created. -/
def todosPostCore (s : Store) (u : User) (title : String)
    (body : CreateTodoRequest) (aid : String) (newId : String)
    (notifOk : Bool) : HResult :=
  let s1 := { s with todos := s.todos ++ [newTodoOf s u title body aid newId] }
  if aid != u.id then
    if !notifOk then ⟨s1, .err 500 "Internal server error"⟩
    else
      ⟨s1.createNotification
        { title := "New Todo Assigned"
          message := "You have been assigned a new todo: \"" ++
            title ++ "\""
          isRead := false
          type := "todo_assigned"
          userId := aid
          todoId := some newId }, .ok 201⟩
  else ⟨s1, .ok 201⟩

/-- POST /api/todos (todos route lines 137-254): authentication, title
and assignee validation (the assignee must exist and be active),
due-date validation with `todayStart` as the midnight instant of the
past-date check, then the create tail `todosPostCore` with `newId` as
the id the store generates for the row. -/
def todosPost (s : Store) (tok : TokenCheck) (body : CreateTodoRequest)
    (todayStart : Int) (newId : String) (notifOk : Bool) : HResult :=
  match authenticateUser s tok with
  | .failed msg => ⟨s, .err 401 msg⟩
  | .authed u =>
    match body.title with
    | none => ⟨s, .err 400 "Title is required"⟩
    | some title =>
      if strTrim title == "" then ⟨s, .err 400 "Title is required"⟩
      else if decide (title.length > 255) then
        ⟨s, .err 400 "Title must be less than 255 characters"⟩
      else
        match body.assigneeId with
        | none => ⟨s, .err 400 "Assignee is required"⟩
        | some aid =>
          match s.findUser aid with
          | none => ⟨s, .err 404 "Assignee not found"⟩
          | some assignee =>
            if !assignee.isActive then
              ⟨s, .err 400 "Cannot assign todo to inactive user"⟩
            else if body.dueDate == .dInvalid then
              ⟨s, .err 400 "Invalid due date format"⟩
            else if (match body.dueDate with
                | .dDate ms => decide (ms < todayStart)
                | _ => false) then
              ⟨s, .err 400 "Due date cannot be in the past"⟩
            else todosPostCore s u title body aid newId notifOk

/-! ### POST profile-picture upload (app/api users profile route) -/

/-- A multipart upload entry as the handlers see it: client-supplied name
and MIME type (the binary payload is not modelled). -/
structure UploadFile where
  name : String
  type : String
deriving DecidableEq, Repr

/-- Characters after the last dot of the scanned prefix (the accumulator
resets at each dot), i.e. the last segment of a dot split. -/
def lastDotSegment : List Char → List Char → List Char
  | [], acc => acc
  | c :: cs, acc =>
    if c == '.' then lastDotSegment cs [] else lastDotSegment cs (acc ++ [c])

/-- `file.name.split(".").pop()`: the segment after the last dot, or the
whole name when it contains no dot. -/
def fileExtension (name : String) : String :=
  String.mk (lastDotSegment name.toList [])

/-- POST profile-picture upload (the route outside the todos tree).  This
handler does NOT call `authenticateUser`: it checks only that a bearer
token is present and verifies it, then runs `prisma.user.update` on the
payload's userId directly — the user's existence and `isActive` flag are
never re-checked.  `verifyToken` throwing is caught by the outer catch
(500); an update on a missing user also throws to the outer catch (500,
no mutation); an inactive user's row is updated and the handler answers
success. -/
def profilePicPost (s : Store) (tok : TokenCheck) (file : Option UploadFile)
    (timestamp : Int) : HResult :=
  match tok with
  | .noToken => ⟨s, .err 401 "Unauthorized"⟩
  | .invalid => ⟨s, .err 500 "Failed to upload profile picture"⟩
  | .valid uid =>
    match file with
    | none => ⟨s, .err 400 "No file uploaded"⟩
    | some f =>
      let allowed := ["image/jpeg", "image/png", "image/gif", "image/webp"]
      if !(allowed.contains f.type) then
        ⟨s, .err 400 "Invalid file type"⟩
      else
        match s.findUser uid with
        | none => ⟨s, .err 500 "Failed to upload profile picture"⟩
        | some _ =>
          let picPath := "/uploads/profiles/" ++ uid ++ "-" ++
            toString timestamp ++ "." ++ fileExtension f.name
          ⟨s.updateUser uid (fun usr => { usr with profilePic := some picPath }),
           .ok 200⟩

/-! ### GET file serve route -/

/-- The access disjunction of the serve route's `findFirst` filter: the
requester uploaded the file, or the file's related todo exists and the
requester is its creator or assignee (a file with no linked todo fails
the relation branch). -/
def fileAccess (s : Store) (uid : String) (f : FileRec) : Bool :=
  f.uploadedById == uid ||
  (match f.todoId with
   | some tid =>
     match s.findTodo tid with
     | some t => t.creatorId == uid || t.assigneeId == uid
     | none => false
   | none => false)

/-- Response of the file-serve route: the served bytes or an error. -/
inductive ServeResp where
  | content (bytes : String)
  | err (status : Nat) (msg : String)
deriving DecidableEq, Repr

/-- GET file serve (serve route lines 8-83).  `disk` maps a stored
filename to the bytes present in the uploads directory.  The single
`findFirst` query combines the filename match with the access
disjunction, so a denied file and an absent file produce the same 404
response. -/
def serveFile (s : Store) (disk : String → Option String)
    (tok : TokenCheck) (filename : String) : ServeResp :=
  match authenticateUser s tok with
  | .failed msg => .err 401 msg
  | .authed u =>
    match s.files.find?
        (fun f => f.fileName == filename && fileAccess s u.id f) with
    | none => .err 404 "File not found or access denied"
    | some _ =>
      match disk filename with
      | none => .err 404 "File not found on server"
      | some bytes => .content bytes

/-! ### GET /api/files (listing route) -/

/-- Case-insensitive substring test (`contains` with `mode:
insensitive`). -/
def containsInsensitive (haystack needle : String) : Bool :=
  decide (List.IsInfix (needle.toList.map Char.toLower) (haystack.toList.map Char.toLower))

/-- Response of the file-listing route. -/
inductive ListResp where
  | ok (files : List FileRec)
  | err (status : Nat) (msg : String)
deriving DecidableEq, Repr

/-- The `where` clause of GET /api/files (files route lines 192-206):
always `uploadedById = user.id` — users see only files they themselves
uploaded — optionally narrowed by `todoId` and by a case-insensitive
search over the original name. -/
def listFilesWhere (uid : String) (todoId : Option String)
    (search : Option String) (f : FileRec) : Bool :=
  f.uploadedById == uid &&
  (match todoId with
   | some tid => f.todoId == some tid
   | none => true) &&
  (match search with
   | some q => containsInsensitive f.originalName q
   | none => true)

/-- GET /api/files (files route lines 174-255).  The matching rows are
paginated with `skip = (page-1)*limit` / `take = limit`.  The
`uploadedAt desc` ordering of the source only permutes the rows and is
not modelled; no claim depends on the order within a page. -/
def listFiles (s : Store) (tok : TokenCheck) (page limit : Nat)
    (todoId : Option String) (search : Option String) : ListResp :=
  match authenticateUser s tok with
  | .failed msg => .err 401 msg
  | .authed u =>
    let matching := s.files.filter (listFilesWhere u.id todoId search)
    .ok ((matching.drop ((page - 1) * limit)).take limit)

/-! ### Concrete fixtures (used by witness and counterexample theorems) -/

/-- Fixture: an active user who creates todos. -/
def fxAlice : User := ⟨"u1", "alice@example.com", "Alice", .USER, true, none⟩

/-- Fixture: an active user who is assigned todos. -/
def fxBob : User := ⟨"u2", "bob@example.com", "Bob", .USER, true, none⟩

/-- Fixture: a deactivated user. -/
def fxCarol : User := ⟨"u3", "carol@example.com", "Carol", .USER, false, none⟩

/-- Fixture: an active user unrelated to the fixture todo. -/
def fxDave : User := ⟨"u4", "dave@example.com", "Dave", .USER, true, none⟩

/-- Fixture: a pending todo created by Alice and assigned to Bob. -/
def fxTodo : Todo :=
  ⟨"t1", "Write report", none, .PENDING, .MEDIUM, none, some 1, "u1", "u2", none⟩

/-- Fixture: a file uploaded by Bob and attached to the fixture todo. -/
def fxFile : FileRec :=
  ⟨"stored1.png", "orig.png", 10, "image/png", some "t1", "u2", 0⟩

/-- Fixture: a notification previously cascaded from the fixture todo. -/
def fxNotif : Notification :=
  ⟨"Old", "old message", false, "todo_assigned", "u2", some "t1"⟩

/-- Fixture store holding the four users, the todo, its file and a
notification referencing the todo. -/
def fxStore : Store := ⟨[fxAlice, fxBob, fxCarol, fxDave], [fxTodo], [fxFile], [fxNotif]⟩

/-! ### Guard-elimination lemmas -/

/-- Under passing guards, the generic PUT reduces to its diff-and-update
tail. -/
theorem todoPut_eq_core (s : Store) (tok : TokenCheck) (tid : String)
    (body : UpdateTodoRequest) (now : Int) (nOk : Bool) (u : User)
    (cur : Todo) (hauth : authenticateUser s tok = .authed u)
    (hacc : canAccessTodo s u.id tid = true)
    (ht1 : (match body.title with
      | some t => strTrim t == ""
      | none => false) = false)
    (ht2 : (match body.title with
      | some t => decide (t.length > 255)
      | none => false) = false)
    (hd : (body.dueDate == some DueDateField.dInvalid) = false)
    (hfind : s.findTodo tid = some cur) :
    todoPut s tok tid body now nOk = todoPutCore s u cur tid body now nOk := by
  unfold todoPut
  rw [hauth]
  dsimp only
  rw [hacc, ht1, ht2, hd, hfind]
  rfl

/-- Under passing guards, the todo-create POST reduces to its create
tail. -/
theorem todosPost_eq_core (s : Store) (tok : TokenCheck)
    (body : CreateTodoRequest) (ts : Int) (newId : String) (nOk : Bool)
    (u : User) (title : String) (aid : String) (a : User)
    (hauth : authenticateUser s tok = .authed u)
    (htitle : body.title = some title)
    (ht1 : (strTrim title == "") = false)
    (ht2 : decide (title.length > 255) = false)
    (haid : body.assigneeId = some aid)
    (ha : s.findUser aid = some a)
    (hact : a.isActive = true)
    (hd1 : (body.dueDate == DueDateField.dInvalid) = false)
    (hd2 : (match body.dueDate with
      | DueDateField.dDate ms => decide (ms < ts)
      | _ => false) = false) :
    todosPost s tok body ts newId nOk = todosPostCore s u title body aid newId nOk := by
  unfold todosPost
  rw [hauth]
  dsimp only
  rw [htitle]
  dsimp only
  rw [ht1, ht2, haid]
  dsimp only
  rw [ha]
  dsimp only
  rw [hact, hd1, hd2]
  rfl

/-- An empty computed diff is rejected before any write. -/
theorem todoPutCore_empty_diff (s : Store) (u : User) (cur : Todo)
    (tid : String) (body : UpdateTodoRequest) (now : Int) (nOk : Bool)
    (hempty : ((buildUpdate cur body (parsedDueOf body.dueDate) now).1).isEmpty
      = true) :
    todoPutCore s u cur tid body now nOk =
      ⟨s, .err 400 "No changes detected"⟩ := by
  unfold todoPutCore
  dsimp only
  rw [hempty]
  rfl

/-- When the diff is non-empty and a notification is due but its
creation fails, the response is the generic 500 — with the todo row
already updated in the store. -/
theorem todoPutCore_notif_failure (s : Store) (u : User) (cur : Todo)
    (tid : String) (body : UpdateTodoRequest) (now : Int)
    (hempty : ((buildUpdate cur body (parsedDueOf body.dueDate) now).1).isEmpty
      = false)
    (hwant : (((buildUpdate cur body (parsedDueOf body.dueDate) now).2.nonEmpty
        && cur.assigneeId != u.id) ||
      (body.status == some TodoStatus.COMPLETED && cur.assigneeId != u.id))
      = true) :
    todoPutCore s u cur tid body now false =
      ⟨s.updateTodo tid (fun t =>
        applyUpdate t (buildUpdate cur body (parsedDueOf body.dueDate) now).1),
       .err 500 "Internal server error"⟩ := by
  unfold todoPutCore
  dsimp only
  rw [hempty, hwant]
  rfl

/-- Shape of a successful generic update: the row is updated and the
store gains the `todo_updated` notification when a tracked field changed
and the actor is not the assignee, and the `todo_completed` notification
when the submitted status is COMPLETED and the actor is not the
assignee. -/
theorem todoPutCore_success_shape (s : Store) (u : User) (cur : Todo)
    (tid : String) (body : UpdateTodoRequest) (now : Int)
    (hempty : ((buildUpdate cur body (parsedDueOf body.dueDate) now).1).isEmpty
      = false) :
    (todoPutCore s u cur tid body now true).resp = .ok 200 ∧
    (todoPutCore s u cur tid body now true).store.todos =
      (s.updateTodo tid (fun t =>
        applyUpdate t (buildUpdate cur body (parsedDueOf body.dueDate) now).1)).todos ∧
    (todoPutCore s u cur tid body now true).store.notifications =
      s.notifications ++
      (if (buildUpdate cur body (parsedDueOf body.dueDate) now).2.nonEmpty
          && cur.assigneeId != u.id then
        [⟨"Todo Updated",
          "Your todo \"" ++
            (applyUpdate cur
              (buildUpdate cur body (parsedDueOf body.dueDate) now).1).title ++
            "\" has been updated",
          false, "todo_updated", cur.assigneeId, some tid⟩]
      else []) ++
      (if body.status == some TodoStatus.COMPLETED && cur.assigneeId != u.id then
        [⟨"Todo Completed",
          "Your todo \"" ++
            (applyUpdate cur
              (buildUpdate cur body (parsedDueOf body.dueDate) now).1).title ++
            "\" has been marked as completed",
          false, "todo_completed", cur.assigneeId, some tid⟩]
      else []) := by
  unfold todoPutCore
  dsimp only
  rw [hempty]
  cases hwu : (buildUpdate cur body (parsedDueOf body.dueDate) now).2.nonEmpty
      && cur.assigneeId != u.id <;>
    cases hwc : body.status == some TodoStatus.COMPLETED
        && cur.assigneeId != u.id <;>
      simp [Store.createNotification, Store.updateTodo]

/-- The status-only route never touches the notifications table. -/
theorem statusPut_notifications (s : Store) (tok : TokenCheck)
    (tid : String) (st : Option TodoStatus) :
    (statusPut s tok tid st).store.notifications = s.notifications := by
  unfold statusPut
  cases authenticateUser s tok with
  | failed msg => rfl
  | authed u =>
    dsimp only
    by_cases h : canAccessTodo s u.id tid
    · simp only [h]
      cases st with
      | none => simp
      | some stv =>
        by_cases h2 : stv == TodoStatus.CANCELLED <;>
          simp [h2, Store.updateTodo]
    · simp [h]

/-- Create tail, assignee distinct from creator, notification store up:
todo row appended and exactly one `todo_assigned` notification appended,
addressed to the assignee. -/
theorem todosPostCore_assigned_other (s : Store) (u : User) (title : String)
    (body : CreateTodoRequest) (aid : String) (nid : String)
    (hne : (aid != u.id) = true) :
    todosPostCore s u title body aid nid true =
      ⟨{ s with
          todos := s.todos ++ [newTodoOf s u title body aid nid],
          notifications := s.notifications ++
            [⟨"New Todo Assigned",
              "You have been assigned a new todo: \"" ++ title ++ "\"",
              false, "todo_assigned", aid, some nid⟩] }, .ok 201⟩ := by
  unfold todosPostCore
  dsimp only
  rw [hne]
  rfl

/-- Create tail, assignee distinct from creator, notification store
failing: the todo row is still appended but the response is the generic
500. -/
theorem todosPostCore_notif_failure (s : Store) (u : User) (title : String)
    (body : CreateTodoRequest) (aid : String) (nid : String)
    (hne : (aid != u.id) = true) :
    todosPostCore s u title body aid nid false =
      ⟨{ s with todos := s.todos ++ [newTodoOf s u title body aid nid] },
       .err 500 "Internal server error"⟩ := by
  unfold todosPostCore
  dsimp only
  rw [hne]
  rfl

/-- Create tail, self-assigned: the todo row is appended and no
notification is created, whatever the notification store would do. -/
theorem todosPostCore_self (s : Store) (u : User) (title : String)
    (body : CreateTodoRequest) (aid : String) (nid : String) (nOk : Bool)
    (heq : (aid != u.id) = false) :
    todosPostCore s u title body aid nid nOk =
      ⟨{ s with todos := s.todos ++ [newTodoOf s u title body aid nid] },
       .ok 201⟩ := by
  unfold todosPostCore
  dsimp only
  rw [heq]
  rfl

/-! ### Fixture request bodies -/

/-- Fixture update body: only a changed title. -/
def fxBodyTitle : UpdateTodoRequest :=
  ⟨some "New title", none, none, none, none, none⟩

/-- Fixture update body: only a position, equal to the stored one. -/
def fxBodyPos : UpdateTodoRequest :=
  ⟨none, none, none, none, none, some 1⟩

/-- Fixture update body: every submitted field equal to the stored row
(title resubmitted unchanged), no position. -/
def fxBodySame : UpdateTodoRequest :=
  ⟨some "Write report", none, none, none, none, none⟩

/-- Fixture update body: only status, set to COMPLETED. -/
def fxBodyComplete : UpdateTodoRequest :=
  ⟨none, none, some .COMPLETED, none, none, none⟩

/-- Fixture create body: a todo assigned to Bob. -/
def fxCreateBody : CreateTodoRequest :=
  ⟨some "New task", none, some "u2", .dNull, none⟩

/-- Fixture create body: a todo Alice assigns to herself. -/
def fxCreateBodySelf : CreateTodoRequest :=
  ⟨some "New task", none, some "u1", .dNull, none⟩

/-! ### Claims -/

/-- C1.  The claim states that every API mutation that can change a todo
status — the generic PUT /api/todos/[id] and the status-only
PUT /api/todos/[id]/status — maintains the invariant that `completedAt`
is non-null iff `status == COMPLETED`.  The status-only route violates
it: on a PENDING todo with `completedAt = null`, a status-only update to
COMPLETED answers success, writes `status = COMPLETED` and leaves
`completedAt` null, so the invariant does not hold after the operation.
This theorem evaluates the embedded status route at that failing input. -/
theorem C1_status_route_breaks_completed_invariant :
    (statusPut fxStore (.valid "u1") "t1" (some .COMPLETED)).resp = .ok 200 ∧
    ((statusPut fxStore (.valid "u1") "t1" (some .COMPLETED)).store.findTodo
      "t1").map Todo.status = some .COMPLETED ∧
    ((statusPut fxStore (.valid "u1") "t1" (some .COMPLETED)).store.findTodo
      "t1").map Todo.completedAt = some none := by
  decide

/-- C4.  `canAccessTodo(userId, todoId)` returns `true` iff a todo with
that id exists in the store and the user is its creator or assignee; for
a non-existent todo id it returns `false` (the predicate is a total
function — the missing-todo case is an ordinary `false`, not an
exception).  The store is assumed to have unique todo ids, as the
database primary key guarantees. -/
theorem C4_canAccessTodo_correct (s : Store) (uid tid : String)
    (hids : (s.todos.map Todo.id).Nodup) :
    (canAccessTodo s uid tid = true ↔
      ∃ t ∈ s.todos, t.id = tid ∧ (t.creatorId = uid ∨ t.assigneeId = uid)) ∧
    ((∀ t ∈ s.todos, t.id ≠ tid) → canAccessTodo s uid tid = false) := by
  constructor
  · constructor
    · intro h
      unfold canAccessTodo at h
      cases hf : s.findTodo tid with
      | none => rw [hf] at h; exact absurd h (by simp)
      | some t =>
        rw [hf] at h
        refine ⟨t, List.mem_of_find?_eq_some hf, ?_, ?_⟩
        · have := List.find?_some hf
          simpa using this
        · simpa using h
    · rintro ⟨t, hmem, hid, hacc⟩
      unfold canAccessTodo
      cases hf : s.findTodo tid with
      | none =>
        exfalso
        have := List.find?_eq_none.mp hf t hmem
        simp [hid] at this
      | some t2 =>
        have hmem2 := List.mem_of_find?_eq_some hf
        have hid2 : t2.id = tid := by
          have := List.find?_some hf
          simpa using this
        have : t2 = t :=
          List.inj_on_of_nodup_map hids hmem2 hmem (by rw [hid2, hid])
        subst this
        simpa using hacc
  · intro hnone
    unfold canAccessTodo
    cases hf : s.findTodo tid with
    | none => rfl
    | some t =>
      exfalso
      exact hnone t (List.mem_of_find?_eq_some hf)
        (by have := List.find?_some hf; simpa using this)

/-- Witness for C4: the access predicate applied in the fixture store,
whose todo ids are distinct. -/
theorem C4_canAccessTodo_witness :
    (canAccessTodo fxStore "u1" "t1" = true ↔
      ∃ t ∈ fxStore.todos, t.id = "t1" ∧
        (t.creatorId = "u1" ∨ t.assigneeId = "u1")) ∧
    ((∀ t ∈ fxStore.todos, t.id ≠ "t1") →
      canAccessTodo fxStore "u1" "t1" = false) :=
  C4_canAccessTodo_correct fxStore "u1" "t1" (by decide)

/-- C2, counterexample.  The claim states that for every authenticated
API request a valid token whose user is inactive yields Unauthorized and
that no endpoint performs its mutation on behalf of an inactive user.
The profile-picture upload endpoint refutes it: with a valid token for
the deactivated user Carol it answers success and writes her
`profilePic` column. -/
theorem C2_counterexample_inactive_user_mutation :
    fxCarol.isActive = false ∧
    (profilePicPost fxStore (.valid "u3")
      (some ⟨"me.png", "image/png"⟩) 5).resp = .ok 200 ∧
    ((profilePicPost fxStore (.valid "u3")
      (some ⟨"me.png", "image/png"⟩) 5).store.findUser "u3").map
        User.profilePic = some (some "/uploads/profiles/u3-5.png") := by
  decide

/-- C2, amended.  Every endpoint that authenticates through
`authenticateUser` re-checks the token's user against the store: a valid
token whose user no longer exists or is inactive fails authentication
with the corresponding message, and each such endpoint then returns
Unauthorized (401) with the store unmodified.  (The profile-picture
upload endpoint is the exception established by the counterexample: it
only verifies the token and mutates on behalf of an inactive user.) -/
theorem C2_auth_recheck_amended (s : Store) (uid : String) :
    (s.findUser uid = none →
      authenticateUser s (.valid uid) = .failed "User not found") ∧
    (∀ u, s.findUser uid = some u → u.isActive = false →
      authenticateUser s (.valid uid) = .failed "User account is disabled") ∧
    (∀ tok msg, authenticateUser s tok = .failed msg →
      (∀ tid st, statusPut s tok tid st = ⟨s, .err 401 msg⟩) ∧
      (∀ tid body now nOk, todoPut s tok tid body now nOk =
        ⟨s, .err 401 msg⟩) ∧
      (∀ tid nOk, todoDelete s tok tid nOk = ⟨s, .err 401 msg⟩) ∧
      (∀ body ts nid nOk, todosPost s tok body ts nid nOk =
        ⟨s, .err 401 msg⟩) ∧
      (∀ disk fn, serveFile s disk tok fn = .err 401 msg) ∧
      (∀ p l tq sq, listFiles s tok p l tq sq = .err 401 msg)) := by
  refine ⟨?_, ?_, ?_⟩
  · intro h
    simp [authenticateUser, h]
  · intro u hu hact
    simp [authenticateUser, hu, hact]
  · intro tok msg h
    refine ⟨?_, ?_, ?_, ?_, ?_, ?_⟩
    · intro tid st
      simp [statusPut, h]
    · intro tid body now nOk
      simp [todoPut, h]
    · intro tid nOk
      simp [todoDelete, h]
    · intro body ts nid nOk
      simp [todosPost, h]
    · intro disk fn
      simp [serveFile, h]
    · intro p l tq sq
      simp [listFiles, h]

/-- Witness for C2 (amended): the fixture store with the deactivated
user Carol, whose valid token is rejected with 401 by the status route. -/
theorem C2_auth_recheck_witness :
    authenticateUser fxStore (.valid "u3") = .failed "User account is disabled" ∧
    statusPut fxStore (.valid "u3") "t1" none =
      ⟨fxStore, .err 401 "User account is disabled"⟩ := by
  have h := C2_auth_recheck_amended fxStore "u3"
  have hauth : authenticateUser fxStore (.valid "u3") =
      .failed "User account is disabled" :=
    h.2.1 fxCarol (by decide) (by decide)
  exact ⟨hauth, (h.2.2 (.valid "u3") _ hauth).1 "t1" none⟩

/-- C9.  The file-serve route returns the file bytes only when the store
holds a row with the requested stored filename to which the requester has
access (uploader, or creator/assignee of the linked todo) and the bytes
exist on disk; and for a requester with access to no row of that
filename — which includes the case that no such file exists at all — the
response is the one fixed NotFound value, so denial is indistinguishable
from absence. -/
theorem C9_serve_access_indistinguishable (s : Store)
    (disk : String → Option String) (tok : TokenCheck) (fn : String)
    (u : User) (hauth : authenticateUser s tok = .authed u) :
    (∀ c, serveFile s disk tok fn = .content c →
      ∃ f ∈ s.files, f.fileName = fn ∧ fileAccess s u.id f = true ∧
        disk fn = some c) ∧
    ((∀ f ∈ s.files, f.fileName = fn → fileAccess s u.id f = false) →
      serveFile s disk tok fn = .err 404 "File not found or access denied") := by
  constructor
  · intro c hc
    unfold serveFile at hc
    rw [hauth] at hc
    dsimp only at hc
    cases hf : s.files.find?
        (fun f => f.fileName == fn && fileAccess s u.id f) with
    | none => rw [hf] at hc; exact absurd hc (by simp)
    | some f =>
      rw [hf] at hc
      have hmem := List.mem_of_find?_eq_some hf
      have hpred := List.find?_some hf
      rw [Bool.and_eq_true] at hpred
      refine ⟨f, hmem, by simpa using hpred.1, hpred.2, ?_⟩
      cases hd : disk fn with
      | none => rw [hd] at hc; exact absurd hc (by simp)
      | some bytes =>
        rw [hd] at hc
        simp at hc
        rw [hc]
  · intro hdeny
    unfold serveFile
    rw [hauth]
    dsimp only
    have hnone : s.files.find?
        (fun f => f.fileName == fn && fileAccess s u.id f) = none := by
      rw [List.find?_eq_none]
      intro f hmem
      by_cases hn : f.fileName = fn
      · simp [hn, hdeny f hmem hn]
      · simp [hn]
    rw [hnone]

/-- Witness for C9: Dave, an active user with no relation to the fixture
file, receives the fixed NotFound response; the same holds for a
filename absent from the store. -/
theorem C9_serve_witness :
    serveFile fxStore (fun _ => none) (.valid "u4") "stored1.png" =
      .err 404 "File not found or access denied" ∧
    serveFile fxStore (fun _ => none) (.valid "u4") "absent.bin" =
      .err 404 "File not found or access denied" := by
  constructor
  · exact (C9_serve_access_indistinguishable fxStore (fun _ => none)
      (.valid "u4") "stored1.png" fxDave (by decide)).2 (by decide)
  · exact (C9_serve_access_indistinguishable fxStore (fun _ => none)
      (.valid "u4") "absent.bin" fxDave (by decide)).2 (by decide)

/-- C10.  The file-listing route filters on `uploadedById = user.id`, so
a file uploaded by a different user never appears in the requester's
listing, for any page, limit, todo filter or search — even when the file
is attached to a todo of which the requester is creator or assignee, a
situation in which the serve route's access disjunction does grant the
requester the file. -/
theorem C10_listing_own_uploads_only (s : Store) (tok : TokenCheck)
    (u : User) (f : FileRec) (hauth : authenticateUser s tok = .authed u)
    (_hmem : f ∈ s.files) (hup : f.uploadedById ≠ u.id) :
    (∀ page limit tq sq fs,
      listFiles s tok page limit tq sq = .ok fs → f ∉ fs) ∧
    (∀ tid t, f.todoId = some tid → s.findTodo tid = some t →
      (t.creatorId = u.id ∨ t.assigneeId = u.id) →
      fileAccess s u.id f = true) := by
  constructor
  · intro page limit tq sq fs hls hf
    unfold listFiles at hls
    rw [hauth] at hls
    simp only [ListResp.ok.injEq] at hls
    rw [← hls] at hf
    have h1 := List.mem_of_mem_take hf
    have h2 := List.mem_of_mem_drop h1
    have h3 := List.of_mem_filter h2
    unfold listFilesWhere at h3
    rw [Bool.and_eq_true, Bool.and_eq_true] at h3
    exact hup (by simpa using h3.1.1)
  · intro tid t htid ht hca
    unfold fileAccess
    rw [htid]
    dsimp only
    rw [ht]
    rcases hca with h | h <;> simp [h]

/-- Witness for C10: Bob uploaded the fixture file to Alice's todo;
Alice's listing (first page, defaults) omits it though her serve access
to it holds. -/
theorem C10_listing_witness :
    (listFiles fxStore (.valid "u1") 1 20 none none = .ok [] → fxFile ∉ ([] : List FileRec)) ∧
    fileAccess fxStore "u1" fxFile = true := by
  have h := C10_listing_own_uploads_only fxStore (.valid "u1") fxAlice fxFile
    (by decide) (by decide) (by decide)
  exact ⟨h.1 1 20 none none [], h.2 "t1" fxTodo (by decide) (by decide)
    (Or.inl (by decide))⟩

/-- C5, counterexample.  The claim states that an update in which no
submitted field differs from the stored row — including a position equal
to the stored position — is rejected with 400.  The code refutes it: a
submitted position is written without comparison against the stored row,
so a request whose only field is `position = 1` on a todo whose stored
position already is 1 is accepted with 200, not rejected. -/
theorem C5_counterexample_equal_position_accepted :
    fxTodo.position = some 1 ∧
    (todoPut fxStore (.valid "u1") "t1" fxBodyPos 100 true).resp = .ok 200 := by
  decide

/-- C5, amended.  An update request on an existing todo in which no
submitted field differs from the stored row and no position is supplied
(equivalently: whose computed `updateData` is empty) is rejected with
400 "No changes detected", the store is left unchanged, and no
notification is emitted.  A supplied position is always written without
comparison, so it counts as a change even when equal to the stored
value. -/
theorem C5_empty_diff_rejected_amended (s : Store) (tok : TokenCheck)
    (tid : String) (body : UpdateTodoRequest) (now : Int) (nOk : Bool)
    (u : User) (cur : Todo)
    (hauth : authenticateUser s tok = .authed u)
    (hacc : canAccessTodo s u.id tid = true)
    (ht1 : (match body.title with
      | some t => strTrim t == ""
      | none => false) = false)
    (ht2 : (match body.title with
      | some t => decide (t.length > 255)
      | none => false) = false)
    (hd : (body.dueDate == some DueDateField.dInvalid) = false)
    (hfind : s.findTodo tid = some cur)
    (hempty : ((buildUpdate cur body (parsedDueOf body.dueDate) now).1).isEmpty
      = true) :
    todoPut s tok tid body now nOk = ⟨s, .err 400 "No changes detected"⟩ := by
  rw [todoPut_eq_core s tok tid body now nOk u cur hauth hacc ht1 ht2 hd hfind]
  exact todoPutCore_empty_diff s u cur tid body now nOk hempty

/-- Witness for C5 (amended): resubmitting the stored title verbatim,
with no position, is rejected and the fixture store is untouched. -/
theorem C5_empty_diff_witness :
    todoPut fxStore (.valid "u1") "t1" fxBodySame 100 true =
      ⟨fxStore, .err 400 "No changes detected"⟩ :=
  C5_empty_diff_rejected_amended fxStore (.valid "u1") "t1" fxBodySame 100
    true fxAlice fxTodo (by decide) (by decide) (by decide) (by decide)
    (by decide) (by decide) (by decide)

/-- C3, counterexample.  The claim states that for todo creation, update
and deletion a notification-creation failure after the primary mutation
is logged and swallowed and the operation still returns success.  The
update handler refutes it: its notification creation is not wrapped, so
when it fails the request answers 500 "Internal server error" — even
though the todo row has already been updated (the title change below is
visible in the store afterwards). -/
theorem C3_counterexample_update_notification_failure :
    (todoPut fxStore (.valid "u1") "t1" fxBodyTitle 100 false).resp =
      .err 500 "Internal server error" ∧
    ((todoPut fxStore (.valid "u1") "t1" fxBodyTitle 100 false).store.findTodo
      "t1").map Todo.title = some "New title" := by
  decide

/-- C3, amended.  Only the deletion handler wraps notification creation
in its own try/catch: a creator's delete with a failing notification
store still cascades the deletion and answers success.  In the update
and creation handlers a notification failure propagates to the generic
500 handler, although the primary mutation (row update / row insert) has
already been applied. -/
theorem C3_notification_failure_policy_amended :
    (∀ (s : Store) (tok : TokenCheck) (tid : String) (u : User) (todo : Todo),
      authenticateUser s tok = .authed u →
      canAccessTodo s u.id tid = true →
      s.findTodo tid = some todo →
      todo.creatorId = u.id →
      todoDelete s tok tid false = ⟨s.deleteTodoCascade tid, .ok 200⟩) ∧
    (∀ (s : Store) (tok : TokenCheck) (tid : String)
        (body : UpdateTodoRequest) (now : Int) (u : User) (cur : Todo),
      authenticateUser s tok = .authed u →
      canAccessTodo s u.id tid = true →
      (match body.title with
        | some t => strTrim t == ""
        | none => false) = false →
      (match body.title with
        | some t => decide (t.length > 255)
        | none => false) = false →
      (body.dueDate == some DueDateField.dInvalid) = false →
      s.findTodo tid = some cur →
      ((buildUpdate cur body (parsedDueOf body.dueDate) now).1).isEmpty
        = false →
      (((buildUpdate cur body (parsedDueOf body.dueDate) now).2.nonEmpty
          && cur.assigneeId != u.id) ||
        (body.status == some TodoStatus.COMPLETED && cur.assigneeId != u.id))
        = true →
      todoPut s tok tid body now false =
        ⟨s.updateTodo tid (fun t =>
          applyUpdate t (buildUpdate cur body (parsedDueOf body.dueDate) now).1),
         .err 500 "Internal server error"⟩) ∧
    (∀ (s : Store) (tok : TokenCheck) (body : CreateTodoRequest) (ts : Int)
        (nid : String) (u : User) (title : String) (aid : String) (a : User),
      authenticateUser s tok = .authed u →
      body.title = some title →
      (strTrim title == "") = false →
      decide (title.length > 255) = false →
      body.assigneeId = some aid →
      s.findUser aid = some a →
      a.isActive = true →
      (body.dueDate == DueDateField.dInvalid) = false →
      (match body.dueDate with
        | DueDateField.dDate ms => decide (ms < ts)
        | _ => false) = false →
      (aid != u.id) = true →
      todosPost s tok body ts nid false =
        ⟨{ s with todos := s.todos ++ [newTodoOf s u title body aid nid] },
         .err 500 "Internal server error"⟩) := by
  refine ⟨?_, ?_, ?_⟩
  · intro s tok tid u todo hauth hacc hfind hcreator
    unfold todoDelete
    rw [hauth]
    dsimp only
    rw [hacc, hfind]
    dsimp only
    have hc : (todo.creatorId != u.id) = false := by simp [hcreator]
    rw [hc]
    simp
  · intro s tok tid body now u cur hauth hacc ht1 ht2 hd hfind hempty hwant
    rw [todoPut_eq_core s tok tid body now false u cur hauth hacc ht1 ht2 hd
      hfind]
    exact todoPutCore_notif_failure s u cur tid body now hempty hwant
  · intro s tok body ts nid u title aid a hauth htitle ht1 ht2 haid ha hact
      hd1 hd2 hne
    rw [todosPost_eq_core s tok body ts nid false u title aid a hauth htitle
      ht1 ht2 haid ha hact hd1 hd2]
    exact todosPostCore_notif_failure s u title body aid nid hne

/-- Witness for C3 (amended): with the fixture store and a failing
notification store, deletion by the creator still succeeds and cascades,
while a title update and a creation assigned to Bob both answer 500
after their primary mutation. -/
theorem C3_notification_failure_witness :
    todoDelete fxStore (.valid "u1") "t1" false =
      ⟨fxStore.deleteTodoCascade "t1", .ok 200⟩ ∧
    todoPut fxStore (.valid "u1") "t1" fxBodyTitle 100 false =
      ⟨fxStore.updateTodo "t1" (fun t =>
        applyUpdate t
          (buildUpdate fxTodo fxBodyTitle (parsedDueOf fxBodyTitle.dueDate)
            100).1),
       .err 500 "Internal server error"⟩ ∧
    todosPost fxStore (.valid "u1") fxCreateBody 0 "t9" false =
      ⟨{ fxStore with
          todos := fxStore.todos ++
            [newTodoOf fxStore fxAlice "New task" fxCreateBody "u2" "t9"] },
       .err 500 "Internal server error"⟩ := by
  have h := C3_notification_failure_policy_amended
  refine ⟨?_, ?_, ?_⟩
  · exact h.1 fxStore (.valid "u1") "t1" fxAlice fxTodo (by decide) (by decide)
      (by decide) (by decide)
  · exact h.2.1 fxStore (.valid "u1") "t1" fxBodyTitle 100 fxAlice fxTodo
      (by decide) (by decide) (by decide) (by decide) (by decide) (by decide)
      (by decide) (by decide)
  · exact h.2.2 fxStore (.valid "u1") fxCreateBody 0 "t9" fxAlice "New task"
      "u2" fxBob (by decide) (by decide) (by decide) (by decide) (by decide)
      (by decide) (by decide) (by decide) (by decide) (by decide)

/-- C6.  A valid creation whose assignee differs from the creator
appends exactly one notification, of type `todo_assigned`, addressed to
the assignee (so none is addressed to the creator); a creation assigned
to the creator themself appends no notification at all. -/
theorem C6_assignment_notification (s : Store) (tok : TokenCheck)
    (body : CreateTodoRequest) (ts : Int) (nid : String) (u : User)
    (title : String) (aid : String) (a : User)
    (hauth : authenticateUser s tok = .authed u)
    (htitle : body.title = some title)
    (ht1 : (strTrim title == "") = false)
    (ht2 : decide (title.length > 255) = false)
    (haid : body.assigneeId = some aid)
    (ha : s.findUser aid = some a)
    (hact : a.isActive = true)
    (hd1 : (body.dueDate == DueDateField.dInvalid) = false)
    (hd2 : (match body.dueDate with
      | DueDateField.dDate ms => decide (ms < ts)
      | _ => false) = false) :
    (aid ≠ u.id →
      todosPost s tok body ts nid true =
        ⟨{ s with
            todos := s.todos ++ [newTodoOf s u title body aid nid],
            notifications := s.notifications ++
              [⟨"New Todo Assigned",
                "You have been assigned a new todo: \"" ++ title ++ "\"",
                false, "todo_assigned", aid, some nid⟩] }, .ok 201⟩) ∧
    (aid = u.id →
      todosPost s tok body ts nid true =
        ⟨{ s with todos := s.todos ++ [newTodoOf s u title body aid nid] },
         .ok 201⟩) := by
  rw [todosPost_eq_core s tok body ts nid true u title aid a hauth htitle
    ht1 ht2 haid ha hact hd1 hd2]
  constructor
  · intro hne
    exact todosPostCore_assigned_other s u title body aid nid (by simp [hne])
  · intro heq
    exact todosPostCore_self s u title body aid nid true (by simp [heq])

/-- Witness for C6: Alice creates a todo assigned to Bob (one
`todo_assigned` notification for Bob) and one assigned to herself (no
notification). -/
theorem C6_assignment_notification_witness :
    todosPost fxStore (.valid "u1") fxCreateBody 0 "t9" true =
      ⟨{ fxStore with
          todos := fxStore.todos ++
            [newTodoOf fxStore fxAlice "New task" fxCreateBody "u2" "t9"],
          notifications := fxStore.notifications ++
            [⟨"New Todo Assigned",
              "You have been assigned a new todo: \"New task\"",
              false, "todo_assigned", "u2", some "t9"⟩] }, .ok 201⟩ ∧
    todosPost fxStore (.valid "u1") fxCreateBodySelf 0 "t9" true =
      ⟨{ fxStore with
          todos := fxStore.todos ++
            [newTodoOf fxStore fxAlice "New task" fxCreateBodySelf "u1" "t9"] },
       .ok 201⟩ := by
  constructor
  · exact (C6_assignment_notification fxStore (.valid "u1") fxCreateBody 0 "t9"
      fxAlice "New task" "u2" fxBob (by decide) (by decide) (by decide)
      (by decide) (by decide) (by decide) (by decide) (by decide)
      (by decide)).1 (by decide)
  · exact (C6_assignment_notification fxStore (.valid "u1") fxCreateBodySelf 0
      "t9" fxAlice "New task" "u1" fxAlice (by decide) (by decide) (by decide)
      (by decide) (by decide) (by decide) (by decide) (by decide)
      (by decide)).2 rfl

/-- C7, counterexample.  The claim states that every operation
transitioning a todo status to COMPLETED — including the status-only
PUT /api/todos/[id]/status — creates a `todo_completed` notification for
the assignee when the actor is not the assignee.  The status route
refutes it: Alice (creator, not the assignee) completes the fixture todo
through it, the transition succeeds, and the store holds no
`todo_completed` notification afterwards. -/
theorem C7_counterexample_status_route_no_notification :
    fxTodo.status = .PENDING ∧
    fxTodo.assigneeId ≠ "u1" ∧
    (statusPut fxStore (.valid "u1") "t1" (some .COMPLETED)).resp = .ok 200 ∧
    ((statusPut fxStore (.valid "u1") "t1" (some .COMPLETED)).store.findTodo
      "t1").map Todo.status = some .COMPLETED ∧
    (statusPut fxStore (.valid "u1") "t1"
      (some .COMPLETED)).store.notifications.filter
      (fun n => n.type == "todo_completed") = [] := by
  decide

/-- C7, amended.  The status-only route creates no notification at all
(its store's notifications table is unchanged by every request).  Only
the generic update PUT /api/todos/[id] creates a `todo_completed`
notification: on a successful update whose submitted status is
COMPLETED, when the actor is not the assignee the notification is
appended (after the optional `todo_updated` one), addressed to the
assignee; when the actor is the assignee, no notification at all is
created. -/
theorem C7_completion_notification_amended :
    (∀ (s : Store) (tok : TokenCheck) (tid : String)
      (st : Option TodoStatus),
      (statusPut s tok tid st).store.notifications = s.notifications) ∧
    (∀ (s : Store) (tok : TokenCheck) (tid : String)
        (body : UpdateTodoRequest) (now : Int) (u : User) (cur : Todo),
      authenticateUser s tok = .authed u →
      canAccessTodo s u.id tid = true →
      (match body.title with
        | some t => strTrim t == ""
        | none => false) = false →
      (match body.title with
        | some t => decide (t.length > 255)
        | none => false) = false →
      (body.dueDate == some DueDateField.dInvalid) = false →
      s.findTodo tid = some cur →
      ((buildUpdate cur body (parsedDueOf body.dueDate) now).1).isEmpty
        = false →
      body.status = some TodoStatus.COMPLETED →
      (cur.assigneeId ≠ u.id →
        (todoPut s tok tid body now true).store.notifications =
          s.notifications ++
          (if (buildUpdate cur body (parsedDueOf body.dueDate) now).2.nonEmpty
            then
            [⟨"Todo Updated",
              "Your todo \"" ++
                (applyUpdate cur
                  (buildUpdate cur body (parsedDueOf body.dueDate) now).1).title
                ++ "\" has been updated",
              false, "todo_updated", cur.assigneeId, some tid⟩]
          else []) ++
          [⟨"Todo Completed",
            "Your todo \"" ++
              (applyUpdate cur
                (buildUpdate cur body (parsedDueOf body.dueDate) now).1).title
              ++ "\" has been marked as completed",
            false, "todo_completed", cur.assigneeId, some tid⟩]) ∧
      (cur.assigneeId = u.id →
        (todoPut s tok tid body now true).store.notifications =
          s.notifications)) := by
  refine ⟨statusPut_notifications, ?_⟩
  intro s tok tid body now u cur hauth hacc ht1 ht2 hd hfind hempty hstatus
  rw [todoPut_eq_core s tok tid body now true u cur hauth hacc ht1 ht2 hd
    hfind]
  have hshape := todoPutCore_success_shape s u cur tid body now hempty
  constructor
  · intro hne
    have hbne : (cur.assigneeId != u.id) = true := by simp [hne]
    rw [hshape.2.2, hbne, hstatus]
    simp
  · intro heq
    have hbne : (cur.assigneeId != u.id) = false := by simp [heq]
    rw [hshape.2.2, hbne]
    simp

/-- Witness for C7 (amended): the status route leaves the fixture
notifications unchanged, and Alice completing the fixture todo through
the generic update appends the `todo_updated` and `todo_completed`
notifications for Bob. -/
theorem C7_completion_notification_witness :
    (statusPut fxStore (.valid "u1") "t1"
      (some .IN_PROGRESS)).store.notifications = fxStore.notifications ∧
    (todoPut fxStore (.valid "u1") "t1" fxBodyComplete 100
      true).store.notifications =
      fxStore.notifications ++
      (if (buildUpdate fxTodo fxBodyComplete
          (parsedDueOf fxBodyComplete.dueDate) 100).2.nonEmpty then
        [⟨"Todo Updated",
          "Your todo \"" ++
            (applyUpdate fxTodo
              (buildUpdate fxTodo fxBodyComplete
                (parsedDueOf fxBodyComplete.dueDate) 100).1).title
            ++ "\" has been updated",
          false, "todo_updated", fxTodo.assigneeId, some "t1"⟩]
      else []) ++
      [⟨"Todo Completed",
        "Your todo \"" ++
          (applyUpdate fxTodo
            (buildUpdate fxTodo fxBodyComplete
              (parsedDueOf fxBodyComplete.dueDate) 100).1).title
          ++ "\" has been marked as completed",
        false, "todo_completed", fxTodo.assigneeId, some "t1"⟩] := by
  have h := C7_completion_notification_amended
  refine ⟨h.1 fxStore (.valid "u1") "t1" (some .IN_PROGRESS), ?_⟩
  exact (h.2 fxStore (.valid "u1") "t1" fxBodyComplete 100 fxAlice fxTodo
    (by decide) (by decide) (by decide) (by decide) (by decide) (by decide)
    (by decide) (by decide)).1 (by decide)

/-- C8.  Deletion is creator-only: with the acting user authenticated
and the todo present, a non-creator — assignee included — receives a 403
and the store is untouched, while the creator's delete answers success,
removes the todo and cascades: no file and no notification referencing
the deleted todo remains. -/
theorem C8_delete_creator_only_cascade (s : Store) (tok : TokenCheck)
    (tid : String) (nOk : Bool) (u : User) (t : Todo)
    (hauth : authenticateUser s tok = .authed u)
    (hfind : s.findTodo tid = some t) :
    (t.creatorId ≠ u.id →
      (todoDelete s tok tid nOk).store = s ∧
      (todoDelete s tok tid nOk).resp.statusCode = 403) ∧
    (t.creatorId = u.id →
      (todoDelete s tok tid nOk).resp = .ok 200 ∧
      (todoDelete s tok tid nOk).store.todos =
        s.todos.filter (fun x => x.id != tid) ∧
      (todoDelete s tok tid nOk).store.files =
        s.files.filter (fun f => f.todoId != some tid) ∧
      (todoDelete s tok tid nOk).store.notifications.filter
        (fun n => n.todoId == some tid) = []) := by
  have haccv : canAccessTodo s u.id tid =
      (t.creatorId == u.id || t.assigneeId == u.id) := by
    unfold canAccessTodo
    rw [hfind]
  constructor
  · intro hne
    cases hacc : canAccessTodo s u.id tid with
    | false =>
      unfold todoDelete
      rw [hauth]
      dsimp only
      rw [hacc]
      exact ⟨rfl, rfl⟩
    | true =>
      unfold todoDelete
      rw [hauth]
      dsimp only
      rw [hacc, hfind]
      dsimp only
      have hc : (t.creatorId != u.id) = true := by simp [hne]
      rw [hc]
      exact ⟨rfl, rfl⟩
  · intro heq
    have hacc : canAccessTodo s u.id tid = true := by
      rw [haccv]
      simp [heq]
    unfold todoDelete
    rw [hauth]
    dsimp only
    rw [hacc, hfind]
    dsimp only
    have hc : (t.creatorId != u.id) = false := by simp [heq]
    rw [hc]
    cases hn : (t.assigneeId != u.id && nOk) with
    | false =>
      refine ⟨rfl, rfl, rfl, ?_⟩
      show List.filter (fun n => n.todoId == some tid)
        (List.filter (fun n => n.todoId != some tid) s.notifications) = []
      rw [List.filter_filter, List.filter_eq_nil_iff]
      intro n hmem2
      simp
    | true =>
      refine ⟨rfl, rfl, rfl, ?_⟩
      show List.filter (fun n => n.todoId == some tid)
        (List.filter (fun n => n.todoId != some tid) s.notifications ++
          [⟨"Todo Deleted",
            "The todo \"" ++ t.title ++ "\" has been deleted by " ++ u.name,
            false, "todo_updated", t.assigneeId, none⟩]) = []
      rw [List.filter_append, List.filter_filter]
      rw [List.filter_eq_nil_iff.mpr (fun n hmem2 => by simp)]
      simp

/-- Witness for C8: Bob (the assignee) cannot delete the fixture todo;
Alice (the creator) can, and afterwards no file or notification
references it. -/
theorem C8_delete_creator_only_witness :
    ((todoDelete fxStore (.valid "u2") "t1" true).store = fxStore ∧
      (todoDelete fxStore (.valid "u2") "t1" true).resp.statusCode = 403) ∧
    ((todoDelete fxStore (.valid "u1") "t1" true).resp = .ok 200 ∧
      (todoDelete fxStore (.valid "u1") "t1" true).store.todos =
        fxStore.todos.filter (fun x => x.id != "t1") ∧
      (todoDelete fxStore (.valid "u1") "t1" true).store.files =
        fxStore.files.filter (fun f => f.todoId != some "t1") ∧
      (todoDelete fxStore (.valid "u1") "t1" true).store.notifications.filter
        (fun n => n.todoId == some "t1") = []) := by
  constructor
  · exact (C8_delete_creator_only_cascade fxStore (.valid "u2") "t1" true
      fxBob fxTodo (by decide) (by decide)).1 (by decide)
  · exact (C8_delete_creator_only_cascade fxStore (.valid "u1") "t1" true
      fxAlice fxTodo (by decide) (by decide)).2 rfl

end TodoApp
